import Mathlib

/-!
Shallow embedding of `src/faster_whisper_server.py`: a FastAPI server that
loads a faster-whisper model once at startup and exposes two HTTP routes,
`GET /health` and `POST /v1/audio/transcriptions`.

The third-party `WhisperModel.transcribe` library call is modelled as an
oracle function supplied as a parameter; the server code itself (state
construction, route registration, both handlers) is translated from the
source file.
-/

namespace FasterWhisperServer

/-- HTTP method of a registered route. -/
inductive Method where
  | GET
  | POST
  deriving DecidableEq, Repr

/-- A registered HTTP route: method and path, as passed to the
`@app.get` / `@app.post` decorators. -/
structure Route where
  method : Method
  path : String
  deriving DecidableEq, Repr

/-- `app = FastAPI()`: the freshly created app has no routes. -/
def emptyApp : List Route := []

/-- Registering a route decorator appends it to the app's route table. -/
def addRoute (routes : List Route) (m : Method) (p : String) : List Route :=
  routes ++ [⟨m, p⟩]

/-- The route table after both decorators in the source have run:
`@app.get("/health")` then `@app.post("/v1/audio/transcriptions")`. -/
def appRoutes : List Route :=
  addRoute (addRoute emptyApp .GET "/health") .POST "/v1/audio/transcriptions"

/-- The `WhisperModel(MODEL_SIZE, device="cpu", compute_type="int8")`
constructor call: the arguments it was instantiated with. -/
structure WhisperModel where
  modelSize : String
  device : String
  computeType : String
  deriving DecidableEq, Repr

/-- One transcription segment yielded by the library; the handler only
reads its `text` attribute. -/
structure Segment where
  text : String
  deriving DecidableEq, Repr

/-- The `info` value returned by `model.transcribe`; the handler discards
it, so no field of it is observable in this program. -/
structure TranscriptionInfo where
  deriving DecidableEq, Repr

/-- A Python value appearing in the dictionaries the handlers return. -/
inductive PyVal where
  | str (s : String)
  | int (n : Int)
  deriving DecidableEq, Repr

/-- The value a route handler returns to FastAPI: either a bare dict
(line 36 and line 65 of the source) or the tuple `({...}, 500)`
(line 68 of the source). -/
inductive HandlerReturn where
  | dict (entries : List (String × PyVal))
  | tuple (entries : List (String × PyVal)) (code : Nat)
  deriving DecidableEq, Repr

/-- HTTP status FastAPI attaches to a handler's return value: a bare dict
is serialized with the default status 200; a tuple return is also
jsonable-encoded with the default status 200 (FastAPI, unlike Flask, does
not interpret the second tuple component as a status code). -/
def fastapiStatus : HandlerReturn → Nat
  | .dict _ => 200
  | .tuple _ _ => 200

/-- Module-level state built at startup and visible to the handlers:
`MODEL_SIZE`, `model`, and the app's route table. -/
structure ServerState where
  MODEL_SIZE : String
  model : WhisperModel
  routes : List Route
  deriving DecidableEq, Repr

/-- Lines 27-30 plus the two route registrations: `MODEL_SIZE = "base"`,
`model = WhisperModel(MODEL_SIZE, device="cpu", compute_type="int8")`. -/
def initState : ServerState :=
  { MODEL_SIZE := "base"
    model := ⟨"base", "cpu", "int8"⟩
    routes := appRoutes }

deriving instance DecidableEq for Except

/-- The uploaded file of a transcription request. `await file.read()`
either yields the file's full contents as bytes or raises; both outcomes
are carried in `readResult`. -/
structure UploadFile where
  readResult : Except String (List Nat)
  deriving DecidableEq, Repr

/-- A request to `POST /v1/audio/transcriptions`: the uploaded `file`
plus the optional `model` and `language` multipart form fields the
OpenAI-compatible clients may send (the handler's signature binds only
`file`, so these never reach the handler body). -/
structure TranscriptionRequest where
  file : UploadFile
  modelField : Option String
  languageField : Option String
  deriving DecidableEq, Repr

/-- The third-party `model.transcribe(audio, beam_size, language)` call,
as an oracle: given the model, the audio bytes, the beam size and the
language, it either returns `(segments, info)` or raises. -/
abbrev TranscribeOracle :=
  WhisperModel → List Nat → Nat → Option String →
    Except String (List Segment × TranscriptionInfo)

/-- The `health` handler (lines 33-36): returns
`{"status": "ok", "model": MODEL_SIZE}` and touches no state. -/
def health (st : ServerState) : HandlerReturn × ServerState :=
  (.dict [("status", .str "ok"), ("model", .str st.MODEL_SIZE)], st)

/-- The `transcribe_audio` handler (lines 38-68): read the uploaded
bytes, call `model.transcribe(io.BytesIO(audio_bytes), beam_size=5,
language="es")`, join the segment texts with `" ".join`, return
`{"text": text}`; any exception is caught and `({"error": str(e)}, 500)`
is returned instead. -/
def transcribe_audio (transcribe : TranscribeOracle)
    (st : ServerState) (req : TranscriptionRequest) :
    HandlerReturn × ServerState :=
  match req.file.readResult with
  | .error e => (.tuple [("error", .str e)] 500, st)
  | .ok audio_bytes =>
    match transcribe st.model audio_bytes 5 (some "es") with
    | .error e => (.tuple [("error", .str e)] 500, st)
    | .ok (segments, _info) =>
      (.dict [("text",
        .str (String.intercalate " " (segments.map Segment.text)))], st)

/-- An incoming HTTP request to one of the two registered routes. -/
inductive Request where
  | health
  | transcription (req : TranscriptionRequest)
  deriving DecidableEq, Repr

/-- Dispatch one request to its handler. -/
def handle (transcribe : TranscribeOracle) (st : ServerState) :
    Request → HandlerReturn × ServerState
  | .health => health st
  | .transcription req => transcribe_audio transcribe st req

/-- Server state after handling a sequence of requests. -/
def runRequests (transcribe : TranscribeOracle)
    (st : ServerState) : List Request → ServerState
  | [] => st
  | r :: rs => runRequests transcribe (handle transcribe st r).snd rs

/-- Modelled from the claim's words for C1: the plain concatenation, in
order, of the text of each returned segment (no separator). To be
compared with the `" ".join` the source performs. -/
def concatSegmentTexts (segments : List Segment) : String :=
  String.join (segments.map Segment.text)

/-! ### Shared lemmas -/

/-- Neither handler changes any part of the server state. -/
theorem handle_snd (t : TranscribeOracle) (st : ServerState) (r : Request) :
    (handle t st r).snd = st := by
  cases r with
  | health => rfl
  | transcription req =>
    show (transcribe_audio t st req).snd = st
    unfold transcribe_audio
    split
    · rfl
    · split <;> rfl

/-- Handling any sequence of requests leaves the server state unchanged. -/
theorem runRequests_id (t : TranscribeOracle) (st : ServerState)
    (rs : List Request) : runRequests t st rs = st := by
  induction rs generalizing st with
  | nil => rfl
  | cons r rs ih =>
    show runRequests t (handle t st r).snd rs = st
    rw [handle_snd]
    exact ih st

/-- On a successful read and a successful transcription, the handler
returns the dict whose text is the space-join of the segment texts. -/
theorem transcribe_audio_ok (t : TranscribeOracle) (st : ServerState)
    (req : TranscriptionRequest) (bytes : List Nat)
    (segments : List Segment) (info : TranscriptionInfo)
    (hread : req.file.readResult = .ok bytes)
    (htr : t st.model bytes 5 (some "es") = .ok (segments, info)) :
    transcribe_audio t st req =
      (.dict [("text",
        .str (String.intercalate " " (segments.map Segment.text)))], st) := by
  simp [transcribe_audio, hread, htr]

/-! ### Claims -/

/-- C1 counterexample: the handler joins segment texts with `" ".join`,
which is not their plain concatenation. With segments `["a", "b"]` the
response text is `"a b"` while the concatenation of the segment texts is
`"ab"`. -/
theorem C1_counterexample_join_is_not_concat :
    (transcribe_audio (fun _ _ _ _ => .ok ([⟨"a"⟩, ⟨"b"⟩], ⟨⟩))
        initState ⟨⟨.ok [0]⟩, none, none⟩).fst
      = .dict [("text", .str "a b")]
    ∧ concatSegmentTexts [⟨"a"⟩, ⟨"b"⟩] = "ab"
    ∧ ("a b" : String) ≠ "ab" := by
  refine ⟨rfl, rfl, ?_⟩
  decide

/-- C1 (amended): when `model.transcribe` succeeds, the endpoint responds
with a JSON object whose "text" field is the segment texts, in order,
joined with a single space between consecutive texts. -/
theorem C1_text_is_space_joined_segments (t : TranscribeOracle)
    (st : ServerState) (req : TranscriptionRequest) (bytes : List Nat)
    (segments : List Segment) (info : TranscriptionInfo)
    (hread : req.file.readResult = .ok bytes)
    (htr : t st.model bytes 5 (some "es") = .ok (segments, info)) :
    (transcribe_audio t st req).fst
      = .dict [("text",
          .str (String.intercalate " " (segments.map Segment.text)))] := by
  rw [transcribe_audio_ok t st req bytes segments info hread htr]

/-- C1 witness: the amended claim at a concrete request where the model
returns the segments `["hola", "mundo"]`. -/
theorem C1_text_is_space_joined_segments_witness :
    (transcribe_audio (fun _ _ _ _ => .ok ([⟨"hola"⟩, ⟨"mundo"⟩], ⟨⟩))
        initState ⟨⟨.ok [1, 2]⟩, none, none⟩).fst
      = .dict [("text", .str "hola mundo")] := by
  have h := C1_text_is_space_joined_segments
    (fun _ _ _ _ => .ok ([⟨"hola"⟩, ⟨"mundo"⟩], ⟨⟩))
    initState ⟨⟨.ok [1, 2]⟩, none, none⟩ [1, 2]
    [⟨"hola"⟩, ⟨"mundo"⟩] ⟨⟩ rfl rfl
  exact h.trans (by decide)

/-- C2: after any sequence of requests, `GET /health` responds with
HTTP status 200 and the JSON body `{"status": "ok", "model": "base"}`:
the response is the same on every invocation. -/
theorem C2_health_always_200_ok_base (t : TranscribeOracle)
    (rs : List Request) :
    (health (runRequests t initState rs)).fst
      = .dict [("status", .str "ok"), ("model", .str "base")]
    ∧ fastapiStatus (health (runRequests t initState rs)).fst = 200 := by
  rw [runRequests_id]
  exact ⟨rfl, rfl⟩

/-- C3: the model is the one instantiated at startup with
`WhisperModel("base", device="cpu", compute_type="int8")`, and it is
never replaced: after any sequence of requests the state still holds
that same instance. -/
theorem C3_model_loaded_once_at_startup (t : TranscribeOracle)
    (rs : List Request) :
    initState.model = ⟨"base", "cpu", "int8"⟩
    ∧ initState.MODEL_SIZE = "base"
    ∧ (runRequests t initState rs).model = initState.model := by
  refine ⟨rfl, rfl, ?_⟩
  rw [runRequests_id]

/-- C4: the "text" field is computed solely from the segments returned
by `model.transcribe` — two successful requests whose segment lists have
the same texts produce the same response — and it is exactly the
in-order join of the segment texts, with no filtering or reordering. -/
theorem C4_text_solely_from_segments
    (t1 t2 : TranscribeOracle) (st1 st2 : ServerState)
    (req1 req2 : TranscriptionRequest) (b1 b2 : List Nat)
    (s1 s2 : List Segment) (i1 i2 : TranscriptionInfo)
    (h1r : req1.file.readResult = .ok b1)
    (h2r : req2.file.readResult = .ok b2)
    (h1 : t1 st1.model b1 5 (some "es") = .ok (s1, i1))
    (h2 : t2 st2.model b2 5 (some "es") = .ok (s2, i2))
    (htexts : s1.map Segment.text = s2.map Segment.text) :
    (transcribe_audio t1 st1 req1).fst = (transcribe_audio t2 st2 req2).fst
    ∧ (transcribe_audio t1 st1 req1).fst
        = .dict [("text",
            .str (String.intercalate " " (s1.map Segment.text)))] := by
  rw [transcribe_audio_ok t1 st1 req1 b1 s1 i1 h1r h1,
      transcribe_audio_ok t2 st2 req2 b2 s2 i2 h2r h2, htexts]
  exact ⟨rfl, rfl⟩

/-- C4 witness: two requests whose oracles return different segment
objects carrying the same texts yield the same response. -/
theorem C4_text_solely_from_segments_witness :
    (transcribe_audio (fun _ _ _ _ => .ok ([⟨"uno"⟩, ⟨"dos"⟩], ⟨⟩))
        initState ⟨⟨.ok [1]⟩, none, none⟩).fst
      = (transcribe_audio (fun _ _ _ _ => .ok ([⟨"uno"⟩, ⟨"dos"⟩], ⟨⟩))
          initState ⟨⟨.ok [2, 3]⟩, none, none⟩).fst
    ∧ (transcribe_audio (fun _ _ _ _ => .ok ([⟨"uno"⟩, ⟨"dos"⟩], ⟨⟩))
        initState ⟨⟨.ok [1]⟩, none, none⟩).fst
      = .dict [("text", .str (String.intercalate " "
          (([⟨"uno"⟩, ⟨"dos"⟩] : List Segment).map Segment.text)))] :=
  C4_text_solely_from_segments
    (fun _ _ _ _ => .ok ([⟨"uno"⟩, ⟨"dos"⟩], ⟨⟩))
    (fun _ _ _ _ => .ok ([⟨"uno"⟩, ⟨"dos"⟩], ⟨⟩))
    initState initState
    ⟨⟨.ok [1]⟩, none, none⟩ ⟨⟨.ok [2, 3]⟩, none, none⟩
    [1] [2, 3] [⟨"uno"⟩, ⟨"dos"⟩] [⟨"uno"⟩, ⟨"dos"⟩] ⟨⟩ ⟨⟩
    rfl rfl rfl rfl rfl

/-- C5: the app registers exactly two routes, `GET /health` and
`POST /v1/audio/transcriptions`, and no other. -/
theorem C5_exactly_two_routes :
    appRoutes = [⟨.GET, "/health"⟩, ⟨.POST, "/v1/audio/transcriptions"⟩]
    ∧ appRoutes.length = 2
    ∧ initState.routes = appRoutes :=
  ⟨rfl, rfl, rfl⟩

/-- C6: no request mutates any server state: after handling any request
to either endpoint, with any outcome, the model, `MODEL_SIZE` and the
route table are all unchanged. -/
theorem C6_requests_do_not_mutate_state (t : TranscribeOracle)
    (st : ServerState) (r : Request) :
    (handle t st r).snd = st
    ∧ (handle t st r).snd.model = st.model
    ∧ (handle t st r).snd.MODEL_SIZE = st.MODEL_SIZE
    ∧ (handle t st r).snd.routes = st.routes := by
  rw [handle_snd]
  exact ⟨rfl, rfl, rfl, rfl⟩

/-- C7: the handler passes exactly the bytes read from the uploaded file
to `model.transcribe` and consumes nothing else from the model: two
oracles that agree on the model at exactly those bytes (with beam size 5
and language "es") give identical responses. -/
theorem C7_passes_exactly_read_bytes
    (t1 t2 : TranscribeOracle) (st : ServerState)
    (req : TranscriptionRequest) (bytes : List Nat)
    (hread : req.file.readResult = .ok bytes)
    (hagree : t1 st.model bytes 5 (some "es")
      = t2 st.model bytes 5 (some "es")) :
    transcribe_audio t1 st req = transcribe_audio t2 st req := by
  unfold transcribe_audio
  rw [hread]
  simp only [hagree]

/-- C7 witness: an oracle that only answers on the bytes `[7]` and one
that answers everywhere agree there, so the responses coincide. -/
theorem C7_passes_exactly_read_bytes_witness :
    transcribe_audio (fun _ _ _ _ => .ok ([⟨"x"⟩], ⟨⟩))
        initState ⟨⟨.ok [7]⟩, none, none⟩
      = transcribe_audio
          (fun _ b _ _ =>
            if b = [7] then .ok ([⟨"x"⟩], ⟨⟩) else .error "other")
          initState ⟨⟨.ok [7]⟩, none, none⟩ :=
  C7_passes_exactly_read_bytes _ _ initState ⟨⟨.ok [7]⟩, none, none⟩ [7]
    rfl (by decide)

/-- C8: exceptions do not escape the handler: if reading the file
raises, or the transcription call raises, the handler returns the pair
`({"error": str(e)}, 500)` carrying the exception's message. -/
theorem C8_errors_caught_as_500 (t : TranscribeOracle)
    (st : ServerState) (req : TranscriptionRequest) :
    (∀ e, req.file.readResult = .error e →
        transcribe_audio t st req = (.tuple [("error", .str e)] 500, st))
    ∧ (∀ bytes e, req.file.readResult = .ok bytes →
        t st.model bytes 5 (some "es") = .error e →
        transcribe_audio t st req
          = (.tuple [("error", .str e)] 500, st)) := by
  constructor
  · intro e h
    unfold transcribe_audio
    rw [h]
  · intro bytes e h1 h2
    unfold transcribe_audio
    rw [h1]
    simp only [h2]

/-- C8 witness: a request whose file read raises "boom" and a request
whose transcription raises "fallo" both get the 500 error pair. -/
theorem C8_errors_caught_as_500_witness :
    transcribe_audio (fun _ _ _ _ => .error "fallo")
        initState ⟨⟨.error "boom"⟩, none, none⟩
      = (.tuple [("error", .str "boom")] 500, initState)
    ∧ transcribe_audio (fun _ _ _ _ => .error "fallo")
        initState ⟨⟨.ok [9]⟩, none, none⟩
      = (.tuple [("error", .str "fallo")] 500, initState) :=
  ⟨(C8_errors_caught_as_500 _ initState ⟨⟨.error "boom"⟩, none, none⟩).1
      "boom" rfl,
   (C8_errors_caught_as_500 _ initState ⟨⟨.ok [9]⟩, none, none⟩).2
      [9] "fallo" rfl rfl⟩

/-- C9: the response depends only on the uploaded file's bytes: the
`model` and `language` form fields are never consulted, and the model is
always invoked with beam size 5 and language "es" — so any two oracles
agreeing at those fixed arguments on the file's bytes give the same
response whatever the other form fields are. -/
theorem C9_depends_only_on_file_bytes
    (t t' : TranscribeOracle) (st : ServerState) (f : UploadFile)
    (m1 l1 m2 l2 : Option String) (bytes : List Nat)
    (hread : f.readResult = .ok bytes)
    (hagree : t st.model bytes 5 (some "es")
      = t' st.model bytes 5 (some "es")) :
    transcribe_audio t st ⟨f, m1, l1⟩
      = transcribe_audio t' st ⟨f, m2, l2⟩ := by
  unfold transcribe_audio
  simp only [hread, hagree]

/-- C9 witness: two requests with the same file bytes but different
`model`/`language` form fields, under an oracle and a second oracle that
only answers at beam size 5 and language "es", get the same response. -/
theorem C9_depends_only_on_file_bytes_witness :
    transcribe_audio (fun _ _ _ _ => .ok ([⟨"hola"⟩], ⟨⟩))
        initState ⟨⟨.ok [3]⟩, some "large", some "en"⟩
      = transcribe_audio
          (fun _ _ n l =>
            if n = 5 ∧ l = some "es" then .ok ([⟨"hola"⟩], ⟨⟩)
            else .error "ignored")
          initState ⟨⟨.ok [3]⟩, none, none⟩ :=
  C9_depends_only_on_file_bytes _ _ initState ⟨.ok [3]⟩
    (some "large") (some "en") none none [3] rfl (by decide)

end FasterWhisperServer
